import Mathlib

/-!
Verification of the ISDT BLE charger protocol codec, advertisement parser and
request correlator of `src/isdttool/charger/ble.py`, shallow-embedded in Lean.

Bytes are modelled as `Nat` (valid when `< 256`); byte strings as `List Nat`;
Python text strings as `List Char`.  The `construct` combinators used by the
source (`Const`, `Byte`, `Bytes`, `Int32ul`, `Flag`, `Array`) are modelled as
explicit parser functions `List Nat → Option (α × List Nat)`; `parser.parse`
ignores trailing bytes, so `decode` keeps only the first component.
-/

namespace ISDT

/-! ## Byte-level primitives (the construct combinators used by the source) -/

/-- Little-endian 4-byte encoding of a (valid, `< 2^32`) natural, `Int32ul`. -/
def u32le (n : Nat) : List Nat :=
  [n % 256, n / 256 % 256, n / 65536 % 256, n / 16777216 % 256]

/-- `cs.Byte`: read one byte. -/
def pU8 : List Nat → Option (Nat × List Nat)
  | [] => none
  | b :: r => some (b, r)

/-- `cs.Int32ul`: read 4 bytes, little-endian. -/
def pU32 : List Nat → Option (Nat × List Nat)
  | b0 :: b1 :: b2 :: b3 :: r => some (b0 + 256 * b1 + 65536 * b2 + 16777216 * b3, r)
  | _ => none

/-- `cs.Flag`: one byte, nonzero parses as true. -/
def pFlag : List Nat → Option (Bool × List Nat)
  | [] => none
  | b :: r => some (b != 0, r)

/-- `cs.Const(bytes([c]))`: read one byte and fail unless it equals `c`. -/
def pConst (c : Nat) : List Nat → Option (List Nat)
  | [] => none
  | b :: r => if b = c then some r else none

/-- `cs.Bytes(n)`: read exactly `n` bytes. -/
def pBytes (n : Nat) (l : List Nat) : Option (List Nat × List Nat) :=
  if n ≤ l.length then some (l.take n, l.drop n) else none

/-- `cs.Array(count, sub)`: read exactly `count` records with `p`. -/
def pArray (p : List Nat → Option (α × List Nat)) : Nat → List Nat → Option (List α × List Nat)
  | 0, l => some ([], l)
  | n + 1, l =>
    (p l).bind fun xl =>
      (pArray p n xl.2).map fun xsl => (xl.1 :: xsl.1, xsl.2)

/-! ## Packet shapes

The source builds each packet dataclass by mixing a decorator-produced base
into the declared field set; the base's constant fields (`direction`, `cmd`)
come first on the wire, then the declared payload fields in order.
`@af02_packet(c)` contributes a single `Const` command byte `c`;
`@req(c, direction=0x12)` and `@resp(c) = req(c, 0x31)` contribute a `Const`
direction byte and a `Const` command byte.  Constant fields always build and
parse to the fixed byte, so the Lean structures carry only the payload fields.
-/

/-- Default direction byte of `req`. -/
def DIR_REQ : Nat := 0x12
/-- Direction byte of `AlarmToneTaskReq` (`@req(0x9C, direction=0x13)`). -/
def DIR_TASK : Nat := 0x13
/-- Direction byte of `resp` (`resp(cmd) = req(cmd, 0x31)`). -/
def DIR_RESP : Nat := 0x31

/-- `@af02_packet(0x18)` BindReq: a 16-byte UUID (UUIDAdapter over
`cs.Bytes(16)`) and a `Const(b"\x00")` trailer. -/
structure BindReq where
  uuid : List Nat
deriving Repr, DecidableEq

abbrev BindReq.Valid (v : BindReq) : Prop :=
  v.uuid.length = 16 ∧ ∀ b ∈ v.uuid, b < 256

def BindReq.encode (v : BindReq) : List Nat :=
  0x18 :: (v.uuid ++ [0x00])

def BindReq.parse (l : List Nat) : Option (BindReq × List Nat) :=
  (pConst 0x18 l).bind fun l1 =>
    (pBytes 16 l1).bind fun ul =>
      (pConst 0x00 ul.2).map fun l3 => (⟨ul.1⟩, l3)

def BindReq.decode (l : List Nat) : Option BindReq :=
  (BindReq.parse l).map Prod.fst

/-- `@af02_packet(0x19)` BindResp: one byte `bound`. -/
structure BindResp where
  bound : Nat
deriving Repr, DecidableEq

abbrev BindResp.Valid (v : BindResp) : Prop := v.bound < 256

def BindResp.encode (v : BindResp) : List Nat := [0x19, v.bound]

def BindResp.parse (l : List Nat) : Option (BindResp × List Nat) :=
  (pConst 0x19 l).bind fun l1 =>
    (pU8 l1).map fun bl => (⟨bl.1⟩, bl.2)

def BindResp.decode (l : List Nat) : Option BindResp :=
  (BindResp.parse l).map Prod.fst

/-- `@af02_packet(0xE0)` BLEHardwareInfoReq: empty payload. -/
structure BLEHardwareInfoReq where
deriving Repr, DecidableEq

abbrev BLEHardwareInfoReq.Valid (_ : BLEHardwareInfoReq) : Prop := True

def BLEHardwareInfoReq.encode (_ : BLEHardwareInfoReq) : List Nat := [0xE0]

def BLEHardwareInfoReq.parse (l : List Nat) : Option (BLEHardwareInfoReq × List Nat) :=
  (pConst 0xE0 l).map fun l1 => (⟨⟩, l1)

def BLEHardwareInfoReq.decode (l : List Nat) : Option BLEHardwareInfoReq :=
  (BLEHardwareInfoReq.parse l).map Prod.fst

/-- `@af02_packet(0xE1)` BLEHardwareInfoResp: four version bytes and an
8-byte device id (`cs.Bytes(8)`). -/
structure BLEHardwareInfoResp where
  main_hardware_version : Nat
  sub_hardware_version : Nat
  main_software_version : Nat
  sub_software_version : Nat
  device_id : List Nat
deriving Repr, DecidableEq

abbrev BLEHardwareInfoResp.Valid (v : BLEHardwareInfoResp) : Prop :=
  v.main_hardware_version < 256 ∧ v.sub_hardware_version < 256 ∧
  v.main_software_version < 256 ∧ v.sub_software_version < 256 ∧
  v.device_id.length = 8 ∧ ∀ b ∈ v.device_id, b < 256

def BLEHardwareInfoResp.encode (v : BLEHardwareInfoResp) : List Nat :=
  0xE1 :: v.main_hardware_version :: v.sub_hardware_version ::
    v.main_software_version :: v.sub_software_version :: v.device_id

def BLEHardwareInfoResp.parse (l : List Nat) : Option (BLEHardwareInfoResp × List Nat) :=
  (pConst 0xE1 l).bind fun l1 =>
    (pU8 l1).bind fun a =>
      (pU8 a.2).bind fun b =>
        (pU8 b.2).bind fun c =>
          (pU8 c.2).bind fun d =>
            (pBytes 8 d.2).map fun e => (⟨a.1, b.1, c.1, d.1, e.1⟩, e.2)

def BLEHardwareInfoResp.decode (l : List Nat) : Option BLEHardwareInfoResp :=
  (BLEHardwareInfoResp.parse l).map Prod.fst

/-- `@req(0x92)` AlarmToneReq: empty payload. -/
structure AlarmToneReq where
deriving Repr, DecidableEq

abbrev AlarmToneReq.Valid (_ : AlarmToneReq) : Prop := True

def AlarmToneReq.encode (_ : AlarmToneReq) : List Nat := [DIR_REQ, 0x92]

def AlarmToneReq.parse (l : List Nat) : Option (AlarmToneReq × List Nat) :=
  (pConst DIR_REQ l).bind fun l1 =>
    (pConst 0x92 l1).map fun l2 => (⟨⟩, l2)

def AlarmToneReq.decode (l : List Nat) : Option AlarmToneReq :=
  (AlarmToneReq.parse l).map Prod.fst

/-- `@resp(0x93)` AlarmToneResp: a `cs.Flag` byte. -/
structure AlarmToneResp where
  state : Bool
deriving Repr, DecidableEq

abbrev AlarmToneResp.Valid (_ : AlarmToneResp) : Prop := True

def AlarmToneResp.encode (v : AlarmToneResp) : List Nat :=
  [DIR_RESP, 0x93, if v.state then 1 else 0]

def AlarmToneResp.parse (l : List Nat) : Option (AlarmToneResp × List Nat) :=
  (pConst DIR_RESP l).bind fun l1 =>
    (pConst 0x93 l1).bind fun l2 =>
      (pFlag l2).map fun fl => (⟨fl.1⟩, fl.2)

def AlarmToneResp.decode (l : List Nat) : Option AlarmToneResp :=
  (AlarmToneResp.parse l).map Prod.fst

/-- `@req(0x94)` PS200WorkingStatusReq: empty payload. -/
structure PS200WorkingStatusReq where
deriving Repr, DecidableEq

abbrev PS200WorkingStatusReq.Valid (_ : PS200WorkingStatusReq) : Prop := True

def PS200WorkingStatusReq.encode (_ : PS200WorkingStatusReq) : List Nat := [DIR_REQ, 0x94]

def PS200WorkingStatusReq.parse (l : List Nat) : Option (PS200WorkingStatusReq × List Nat) :=
  (pConst DIR_REQ l).bind fun l1 =>
    (pConst 0x94 l1).map fun l2 => (⟨⟩, l2)

def PS200WorkingStatusReq.decode (l : List Nat) : Option PS200WorkingStatusReq :=
  (PS200WorkingStatusReq.parse l).map Prod.fst

/-- Channel record of the working-status response: four bytes, a 2-byte
reserved field, then seven `Int32ul` values, in declaration order. -/
structure PS200WorkingStatusChannel where
  channel_id : Nat
  valid_id : Nat
  channel_type : Nat
  fast_charge_protocol : Nat
  reserved_value : List Nat
  output_voltage : Nat
  output_current : Nat
  output_power : Nat
  maximum_power : Nat
  current_power : Nat
  work_time : Nat
  mWh : Nat
deriving Repr, DecidableEq

abbrev PS200WorkingStatusChannel.Valid (v : PS200WorkingStatusChannel) : Prop :=
  v.channel_id < 256 ∧ v.valid_id < 256 ∧ v.channel_type < 256 ∧
  v.fast_charge_protocol < 256 ∧
  v.reserved_value.length = 2 ∧ (∀ b ∈ v.reserved_value, b < 256) ∧
  v.output_voltage < 4294967296 ∧ v.output_current < 4294967296 ∧
  v.output_power < 4294967296 ∧ v.maximum_power < 4294967296 ∧
  v.current_power < 4294967296 ∧ v.work_time < 4294967296 ∧ v.mWh < 4294967296

def PS200WorkingStatusChannel.encode (v : PS200WorkingStatusChannel) : List Nat :=
  v.channel_id :: v.valid_id :: v.channel_type :: v.fast_charge_protocol ::
    (v.reserved_value ++ u32le v.output_voltage ++ u32le v.output_current ++
      u32le v.output_power ++ u32le v.maximum_power ++ u32le v.current_power ++
      u32le v.work_time ++ u32le v.mWh)

def PS200WorkingStatusChannel.parse (l : List Nat) :
    Option (PS200WorkingStatusChannel × List Nat) :=
  (pU8 l).bind fun a =>
    (pU8 a.2).bind fun b =>
      (pU8 b.2).bind fun c =>
        (pU8 c.2).bind fun d =>
          (pBytes 2 d.2).bind fun e =>
            (pU32 e.2).bind fun f =>
              (pU32 f.2).bind fun g =>
                (pU32 g.2).bind fun h =>
                  (pU32 h.2).bind fun i =>
                    (pU32 i.2).bind fun j =>
                      (pU32 j.2).bind fun k =>
                        (pU32 k.2).map fun m =>
                          (⟨a.1, b.1, c.1, d.1, e.1, f.1, g.1, h.1, i.1, j.1, k.1, m.1⟩, m.2)

/-- `@resp(0x95)` PS200WorkingStatusResp: count byte, then the 4-byte
timestamp, then `total_channels` channel records. -/
structure PS200WorkingStatusResp where
  total_channels : Nat
  timestamp : Nat
  channels : List PS200WorkingStatusChannel
deriving Repr, DecidableEq

abbrev PS200WorkingStatusResp.Valid (v : PS200WorkingStatusResp) : Prop :=
  v.total_channels < 256 ∧ v.timestamp < 4294967296 ∧
  v.channels.length = v.total_channels ∧ ∀ c ∈ v.channels, c.Valid

def PS200WorkingStatusResp.encode (v : PS200WorkingStatusResp) : List Nat :=
  DIR_RESP :: 0x95 :: v.total_channels ::
    (u32le v.timestamp ++ (v.channels.map PS200WorkingStatusChannel.encode).flatten)

def PS200WorkingStatusResp.parse (l : List Nat) : Option (PS200WorkingStatusResp × List Nat) :=
  (pConst DIR_RESP l).bind fun l1 =>
    (pConst 0x95 l1).bind fun l2 =>
      (pU8 l2).bind fun tc =>
        (pU32 tc.2).bind fun ts =>
          (pArray PS200WorkingStatusChannel.parse tc.1 ts.2).map fun chs =>
            (⟨tc.1, ts.1, chs.1⟩, chs.2)

def PS200WorkingStatusResp.decode (l : List Nat) : Option PS200WorkingStatusResp :=
  (PS200WorkingStatusResp.parse l).map Prod.fst

/-- `@req(0x96)` PS200DCStatusReq: empty payload. -/
structure PS200DCStatusReq where
deriving Repr, DecidableEq

abbrev PS200DCStatusReq.Valid (_ : PS200DCStatusReq) : Prop := True

def PS200DCStatusReq.encode (_ : PS200DCStatusReq) : List Nat := [DIR_REQ, 0x96]

def PS200DCStatusReq.parse (l : List Nat) : Option (PS200DCStatusReq × List Nat) :=
  (pConst DIR_REQ l).bind fun l1 =>
    (pConst 0x96 l1).map fun l2 => (⟨⟩, l2)

def PS200DCStatusReq.decode (l : List Nat) : Option PS200DCStatusReq :=
  (PS200DCStatusReq.parse l).map Prod.fst

/-- Channel record of the DC-status response: two bytes then five `Int32ul`
values, in declaration order. -/
structure PS200DCStatusChannel where
  channel_types : Nat
  valid_id : Nat
  voltage : Nat
  current : Nat
  maximum_power : Nat
  current_power : Nat
  current_set_power : Nat
deriving Repr, DecidableEq

abbrev PS200DCStatusChannel.Valid (v : PS200DCStatusChannel) : Prop :=
  v.channel_types < 256 ∧ v.valid_id < 256 ∧
  v.voltage < 4294967296 ∧ v.current < 4294967296 ∧ v.maximum_power < 4294967296 ∧
  v.current_power < 4294967296 ∧ v.current_set_power < 4294967296

def PS200DCStatusChannel.encode (v : PS200DCStatusChannel) : List Nat :=
  v.channel_types :: v.valid_id ::
    (u32le v.voltage ++ u32le v.current ++ u32le v.maximum_power ++
      u32le v.current_power ++ u32le v.current_set_power)

def PS200DCStatusChannel.parse (l : List Nat) : Option (PS200DCStatusChannel × List Nat) :=
  (pU8 l).bind fun a =>
    (pU8 a.2).bind fun b =>
      (pU32 b.2).bind fun c =>
        (pU32 c.2).bind fun d =>
          (pU32 d.2).bind fun e =>
            (pU32 e.2).bind fun f =>
              (pU32 f.2).map fun g => (⟨a.1, b.1, c.1, d.1, e.1, f.1, g.1⟩, g.2)

/-- `@resp(0x97)` PS200DCStatusResp: the 4-byte timestamp, then the count
byte (the opposite order from PS200WorkingStatusResp, per the source's own
comment), then `total_channels` channel records. -/
structure PS200DCStatusResp where
  timestamp : Nat
  total_channels : Nat
  channels : List PS200DCStatusChannel
deriving Repr, DecidableEq

abbrev PS200DCStatusResp.Valid (v : PS200DCStatusResp) : Prop :=
  v.total_channels < 256 ∧ v.timestamp < 4294967296 ∧
  v.channels.length = v.total_channels ∧ ∀ c ∈ v.channels, c.Valid

def PS200DCStatusResp.encode (v : PS200DCStatusResp) : List Nat :=
  DIR_RESP :: 0x97 ::
    (u32le v.timestamp ++ v.total_channels ::
      (v.channels.map PS200DCStatusChannel.encode).flatten)

def PS200DCStatusResp.parse (l : List Nat) : Option (PS200DCStatusResp × List Nat) :=
  (pConst DIR_RESP l).bind fun l1 =>
    (pConst 0x97 l1).bind fun l2 =>
      (pU32 l2).bind fun ts =>
        (pU8 ts.2).bind fun tc =>
          (pArray PS200DCStatusChannel.parse tc.1 tc.2).map fun chs =>
            (⟨ts.1, tc.1, chs.1⟩, chs.2)

def PS200DCStatusResp.decode (l : List Nat) : Option PS200DCStatusResp :=
  (PS200DCStatusResp.parse l).map Prod.fst

/-- `@req(0x9C, direction=0x13)` AlarmToneTaskReq: one byte `task_type`. -/
structure AlarmToneTaskReq where
  task_type : Nat
deriving Repr, DecidableEq

abbrev AlarmToneTaskReq.Valid (v : AlarmToneTaskReq) : Prop := v.task_type < 256

def AlarmToneTaskReq.encode (v : AlarmToneTaskReq) : List Nat :=
  [DIR_TASK, 0x9C, v.task_type]

def AlarmToneTaskReq.parse (l : List Nat) : Option (AlarmToneTaskReq × List Nat) :=
  (pConst DIR_TASK l).bind fun l1 =>
    (pConst 0x9C l1).bind fun l2 =>
      (pU8 l2).map fun bl => (⟨bl.1⟩, bl.2)

def AlarmToneTaskReq.decode (l : List Nat) : Option AlarmToneTaskReq :=
  (AlarmToneTaskReq.parse l).map Prod.fst

/-- `@req(0x9D)` AlarmToneTaskResp: one byte `status`.  N.B. the source
declares this response with the `req` decorator, so its direction byte is
the request default 0x12, not 0x31. -/
structure AlarmToneTaskResp where
  status : Nat
deriving Repr, DecidableEq

abbrev AlarmToneTaskResp.Valid (v : AlarmToneTaskResp) : Prop := v.status < 256

def AlarmToneTaskResp.encode (v : AlarmToneTaskResp) : List Nat :=
  [DIR_REQ, 0x9D, v.status]

def AlarmToneTaskResp.parse (l : List Nat) : Option (AlarmToneTaskResp × List Nat) :=
  (pConst DIR_REQ l).bind fun l1 =>
    (pConst 0x9D l1).bind fun l2 =>
      (pU8 l2).map fun bl => (⟨bl.1⟩, bl.2)

def AlarmToneTaskResp.decode (l : List Nat) : Option AlarmToneTaskResp :=
  (AlarmToneTaskResp.parse l).map Prod.fst

/-! ## Advertisement parsing (`DeviceInfo.from_advertisement`) -/

/-- `ID_MANUFACTURER = 0xabba`. -/
def ID_MANUFACTURER : Nat := 0xabba

/-- `MAGIC_MANUFACTURER = b"\xaf\xfa"`. -/
def MAGIC_MANUFACTURER : List Nat := [0xaf, 0xfa]

/-- The Python exceptions `from_advertisement` can raise, besides returning:
`ValueError("Device is not ISDT")`, `IndexError` from indexing the broadcast
name out of range, `TypeError` from subscripting an absent (`None`) name,
and `UnicodeDecodeError` from the strict UTF-8 `.decode()` of the user-name
bytes.  (In Python `UnicodeDecodeError` subclasses `ValueError`, but it is
distinct from the explicit `ValueError("Device is not ISDT")`.) -/
inductive PyError where
  | valueError
  | indexError
  | typeError
  | unicodeDecodeError
deriving Repr, DecidableEq

/-- The advertisement fields the source reads: the manufacturer-data mapping
(vendor id keyed byte blobs) and the optional broadcast `local_name`. -/
structure Advertisement where
  manufacturer_data : List (Nat × List Nat)
  local_name : Option (List Char)
deriving Repr, DecidableEq

/-- Python `s or t` on strings: `t` if `s` is empty (falsy), else `s`. -/
def pyStrOr (s t : List Char) : List Char :=
  if s = [] then t else s

/-- The whitespace characters Python `str.strip()` removes: exactly the
characters for which `str.isspace()` holds (U+0009–U+000D, U+001C–U+001F,
space, U+0085, U+00A0, U+1680, U+2000–U+200A, U+2028, U+2029, U+202F,
U+205F, U+3000). -/
def pyIsSpace (c : Char) : Bool :=
  let n := c.toNat
  (9 ≤ n && n ≤ 13) || (28 ≤ n && n ≤ 31) || n == 32 || n == 0x85 || n == 0xA0 ||
    n == 0x1680 || (0x2000 ≤ n && n ≤ 0x200A) || n == 0x2028 || n == 0x2029 ||
    n == 0x202F || n == 0x205F || n == 0x3000

/-- Python `str.strip()`: drop whitespace from both ends. -/
def pyStrip (l : List Char) : List Char :=
  ((l.dropWhile pyIsSpace).reverse.dropWhile pyIsSpace).reverse

/-- Python `bytes.rstrip(b"\x00")`: drop trailing zero bytes. -/
def rstripNull (l : List Nat) : List Nat :=
  (l.reverse.dropWhile (· == 0)).reverse

/-- Lower-case hex digit, as Python `bytes.hex()` produces. -/
def hexDigit (n : Nat) : Char :=
  if n < 10 then Char.ofNat (48 + n) else Char.ofNat (87 + n)

/-- Python `bytes.hex()`: two lower-case hex digits per byte. -/
def bytesToHex (l : List Nat) : List Char :=
  (l.map fun b => [hexDigit (b / 16), hexDigit (b % 16)]).flatten

/-- A UTF-8 continuation byte, `0x80..0xBF`. -/
def isCont (b : Nat) : Bool := 0x80 ≤ b && b ≤ 0xBF

/-- Python `bytes.decode()` (strict UTF-8): decode a byte sequence to its
characters, or fail (`UnicodeDecodeError`) on any malformed sequence —
invalid lead bytes, truncated or wrong continuation bytes, overlong forms
(lead `0xC0`/`0xC1`, or out-of-range seconds after `0xE0`/`0xF0`),
surrogates (`0xED` followed by `0xA0..`), and code points above U+10FFFF
(lead above `0xF4`, or out-of-range second after `0xF4`). -/
def utf8Decode : List Nat → Option (List Char)
  | [] => some []
  | b :: r =>
    if b < 0x80 then
      (utf8Decode r).map fun cs => Char.ofNat b :: cs
    else if 0xC2 ≤ b && b ≤ 0xDF then
      match r with
      | b2 :: r2 =>
        if isCont b2 then
          (utf8Decode r2).map fun cs => Char.ofNat ((b - 0xC0) * 64 + (b2 - 0x80)) :: cs
        else none
      | _ => none
    else if 0xE0 ≤ b && b ≤ 0xEF then
      match r with
      | b2 :: b3 :: r3 =>
        if (if b = 0xE0 then 0xA0 ≤ b2 && b2 ≤ 0xBF
            else if b = 0xED then 0x80 ≤ b2 && b2 ≤ 0x9F
            else isCont b2) && isCont b3 then
          (utf8Decode r3).map fun cs =>
            Char.ofNat ((b - 0xE0) * 4096 + (b2 - 0x80) * 64 + (b3 - 0x80)) :: cs
        else none
      | _ => none
    else if 0xF0 ≤ b && b ≤ 0xF4 then
      match r with
      | b2 :: b3 :: b4 :: r4 =>
        if (if b = 0xF0 then 0x90 ≤ b2 && b2 ≤ 0xBF
            else if b = 0xF4 then 0x80 ≤ b2 && b2 ≤ 0x8F
            else isCont b2) && isCont b3 && isCont b4 then
          (utf8Decode r4).map fun cs =>
            Char.ofNat ((b - 0xF0) * 262144 + (b2 - 0x80) * 4096 +
              (b3 - 0x80) * 64 + (b4 - 0x80)) :: cs
        else none
      | _ => none
    else none

/-- The `DeviceInfo` value; every field of the source dataclass is a Python
string, modelled as `List Char`. -/
structure DeviceInfo where
  device_model_id : List Char
  user_name : List Char
  oem_id : List Char
  device : List Char
  work_state : List Char
  binding_action : List Char
  add_state : List Char
deriving Repr, DecidableEq

/-- `DeviceInfo.from_advertisement`: look up the vendor id in the
manufacturer-data mapping; require a truthy blob whose first two bytes are
the magic marker, else `ValueError("Device is not ISDT")`.  Then build the
fields; the keyword arguments evaluate left to right, so
`manufacturer_data[6:].rstrip(b"\x00").decode()` runs first and its strict
UTF-8 decoding raises `UnicodeDecodeError` before any broadcast-name
access; then subscripting an absent name raises `TypeError`, and the
single-char reads `name[12]` and `name[25]` raise `IndexError` when the
name is too short.  `work_state` is `name[12] or "S"` — a one-character
Python string is never falsy, so the `or` default can only matter for an
empty result. -/
def DeviceInfo.from_advertisement (adv : Advertisement) : Except PyError DeviceInfo :=
  match adv.manufacturer_data.lookup ID_MANUFACTURER with
  | some m =>
    if m ≠ [] ∧ m.take 2 = MAGIC_MANUFACTURER then
      match utf8Decode (rstripNull (m.drop 6)) with
      | none => .error .unicodeDecodeError
      | some u =>
        match adv.local_name with
        | none => .error .typeError
        | some s =>
          if h12 : 12 < s.length then
            if h25 : 25 < s.length then
              .ok { device_model_id := bytesToHex ((m.drop 2).take 4)
                    user_name := u
                    oem_id := s.take 4
                    device := pyStrip ((s.drop 4).take 8)
                    work_state := pyStrOr [s.get ⟨12, h12⟩] ['S']
                    binding_action := (s.drop 13).take 5
                    add_state := [s.get ⟨25, h25⟩] }
            else .error .indexError
          else .error .indexError
    else .error .valueError
  | none => .error .valueError

/-! ## The AF02 push-channel handler (`BluetoothCharger._af02_callback`) -/

/-- What the AF02 notification handler produces for the log/observer: either
a decoded packet or the raw bytes. -/
inductive AF02Obj where
  | raw (d : List Nat)
  | bindResp (p : BindResp)
  | hwInfoResp (p : BLEHardwareInfoResp)
deriving Repr, DecidableEq

/-- `_af02_callback`: `obj = data`, then `match tuple(data[0:1])` against the
patterns `(0x19, _)`, `(0xE1, _)`, `(_, 0xF5)` — note the source slices ONE
byte, so the scrutinee has at most one element while every pattern demands
exactly two.  A decode failure in a matched branch would raise out of the
handler, delivering nothing (modelled as falling back to the raw bytes). -/
def af02Callback (data : List Nat) : AF02Obj :=
  match data.take 1 with
  | [0x19, _] =>
    match BindResp.decode data with
    | some p => .bindResp p
    | none => .raw data
  | [0xE1, _] =>
    match BLEHardwareInfoResp.decode data with
    | some p => .hwInfoResp p
    | none => .raw data
  | [_, 0xF5] => .raw data
  | _ => .raw data

/-! ## The AF01 correlated channel (`_CMD_CLASSES`, `_af01_callback`,
`request_af01`)

`_CMD_CLASSES` maps each `@req`/`@resp`-registered command byte to its
parser; `_af01_callback` looks up `data[1]` and parses the whole message.
An out-of-range `data[1]`, an unregistered command byte, or a parse failure
(constant mismatch / truncation raises inside the callback) all leave the
session state untouched. -/

/-- Sum of the packet shapes registered in `_CMD_CLASSES`. -/
inductive AF01Msg where
  | alarmToneReq (p : AlarmToneReq)
  | alarmToneResp (p : AlarmToneResp)
  | workingStatusReq (p : PS200WorkingStatusReq)
  | workingStatusResp (p : PS200WorkingStatusResp)
  | dcStatusReq (p : PS200DCStatusReq)
  | dcStatusResp (p : PS200DCStatusResp)
  | alarmToneTaskReq (p : AlarmToneTaskReq)
  | alarmToneTaskResp (p : AlarmToneTaskResp)
deriving Repr, DecidableEq

/-- Decode an inbound AF01 message as `_af01_callback` does: dispatch on
`data[1]` through `_CMD_CLASSES`, then parse the full message. -/
def af01Decode (d : List Nat) : Option AF01Msg :=
  match d.get? 1 with
  | none => none
  | some c =>
    if c = 0x92 then (AlarmToneReq.decode d).map .alarmToneReq
    else if c = 0x93 then (AlarmToneResp.decode d).map .alarmToneResp
    else if c = 0x94 then (PS200WorkingStatusReq.decode d).map .workingStatusReq
    else if c = 0x95 then (PS200WorkingStatusResp.decode d).map .workingStatusResp
    else if c = 0x96 then (PS200DCStatusReq.decode d).map .dcStatusReq
    else if c = 0x97 then (PS200DCStatusResp.decode d).map .dcStatusResp
    else if c = 0x9C then (AlarmToneTaskReq.decode d).map .alarmToneTaskReq
    else if c = 0x9D then (AlarmToneTaskResp.decode d).map .alarmToneTaskResp
    else none

/-- Session state for correlation: `af01Future` models the single
`self.af01_future` attribute (`none` = Idle); futures are identified by the
order of their creation; `resolved` records, in order, the futures on which
`set_result` has been called. -/
structure CorrState where
  af01Future : Option Nat
  nextId : Nat
  resolved : List Nat
deriving Repr, DecidableEq

/-- Initial session state: `self.af01_future = None`. -/
def initState : CorrState := ⟨none, 0, []⟩

/-- The events that touch the correlation slot: `send` is the synchronous
prefix of `request_af01` (create a fresh future and store it in
`self.af01_future`, unconditionally overwriting it); `recv d` is
`_af01_callback` running on notification bytes `d`. -/
inductive Event where
  | send
  | recv (d : List Nat)

/-- One event step.  `_af01_callback`: if `data[1]` is registered and the
message parses, and a future is pending, resolve it and clear the slot; an
unknown or unparsable message, or an empty slot, changes nothing. -/
def step (s : CorrState) : Event → CorrState
  | .send => { af01Future := some s.nextId, nextId := s.nextId + 1, resolved := s.resolved }
  | .recv d =>
    match af01Decode d with
    | some _ =>
      match s.af01Future with
      | some f => { af01Future := none, nextId := s.nextId, resolved := s.resolved ++ [f] }
      | none => s
    | none => s

/-- Run a sequence of events. -/
def run (s : CorrState) : List Event → CorrState
  | [] => s
  | e :: es => run (step s e) es

/-- Invariant of reachable session states: the pending future is fresh-er
than `nextId` and not yet resolved, and every resolved id is below
`nextId`. -/
def Inv (s : CorrState) : Prop :=
  (∀ g, s.af01Future = some g → g < s.nextId ∧ g ∉ s.resolved) ∧
  ∀ x ∈ s.resolved, x < s.nextId

/-! ## Round-trip lemmas for the primitives -/

theorem pU8_rt (b : Nat) (r : List Nat) : pU8 (b :: r) = some (b, r) := rfl

theorem pConst_rt (c : Nat) (r : List Nat) : pConst c (c :: r) = some r := by
  simp [pConst]

theorem pFlag_rt (b : Bool) (r : List Nat) :
    pFlag ((if b then 1 else 0) :: r) = some (b, r) := by
  cases b <;> simp [pFlag]

theorem pU32_rt (n : Nat) (r : List Nat) (h : n < 4294967296) :
    pU32 (u32le n ++ r) = some (n, r) := by
  simp only [u32le, List.cons_append, List.nil_append, pU32, Prod.mk.injEq, and_true,
    Option.some.injEq]
  omega

theorem pBytes_rt (b r : List Nat) : pBytes b.length (b ++ r) = some (b, r) := by
  simp [pBytes]

theorem pArray_rt {α : Type} (p : List Nat → Option (α × List Nat)) (enc : α → List Nat)
    (xs : List α) (r : List Nat)
    (h : ∀ x ∈ xs, ∀ t, p (enc x ++ t) = some (x, t)) :
    pArray p xs.length ((xs.map enc).flatten ++ r) = some (xs, r) := by
  induction xs with
  | nil => simp [pArray]
  | cons x xs ih =>
    have hx := h x (by simp) ((xs.map enc).flatten ++ r)
    simp only [List.length_cons, List.map_cons, List.flatten_cons, List.append_assoc, pArray, hx,
      Option.bind_eq_bind, Option.some_bind]
    rw [ih fun y hy t => h y (by simp [hy]) t]
    rfl

/-- A successful `pArray` returns exactly `n` records. -/
theorem pArray_length {α : Type} (p : List Nat → Option (α × List Nat)) :
    ∀ (n : Nat) (l : List Nat) (xs : List α) (rest : List Nat),
      pArray p n l = some (xs, rest) → xs.length = n := by
  intro n
  induction n with
  | zero =>
    intro l xs rest h
    simp [pArray] at h
    simp [h.1]
  | succ n ih =>
    intro l xs rest h
    simp only [pArray, Option.bind_eq_bind] at h
    cases hp : p l with
    | none => simp [hp] at h
    | some xl =>
      simp only [hp, Option.some_bind, Option.map_eq_map, Option.map_eq_some'] at h
      obtain ⟨⟨ys, rest2⟩, hys, heq⟩ := h
      cases heq
      simp [ih _ _ _ hys]

/-! ## Round-trip lemmas, one per packet shape -/

theorem rt_BindReq (v : BindReq) (hv : v.Valid) :
    BindReq.decode (BindReq.encode v) = some v := by
  obtain ⟨h16, -⟩ := hv
  have hb : pBytes 16 (v.uuid ++ [0x00]) = some (v.uuid, [0x00]) := by
    rw [← h16]; exact pBytes_rt v.uuid [0x00]
  simp [BindReq.decode, BindReq.encode, BindReq.parse, pConst_rt, hb]

theorem rt_BindResp (v : BindResp) (_hv : v.Valid) :
    BindResp.decode (BindResp.encode v) = some v := by
  simp [BindResp.decode, BindResp.encode, BindResp.parse, pConst_rt, pU8]

theorem rt_BLEHardwareInfoReq (v : BLEHardwareInfoReq) (_hv : v.Valid) :
    BLEHardwareInfoReq.decode (BLEHardwareInfoReq.encode v) = some v := by
  simp [BLEHardwareInfoReq.decode, BLEHardwareInfoReq.encode, BLEHardwareInfoReq.parse, pConst_rt]

theorem rt_BLEHardwareInfoResp (v : BLEHardwareInfoResp) (hv : v.Valid) :
    BLEHardwareInfoResp.decode (BLEHardwareInfoResp.encode v) = some v := by
  obtain ⟨-, -, -, -, h8, -⟩ := hv
  have hb : pBytes 8 (v.device_id ++ []) = some (v.device_id, []) := by
    rw [← h8]; exact pBytes_rt v.device_id []
  rw [List.append_nil] at hb
  simp [BLEHardwareInfoResp.decode, BLEHardwareInfoResp.encode, BLEHardwareInfoResp.parse,
    pConst_rt, pU8, hb]

theorem rt_AlarmToneReq (v : AlarmToneReq) (_hv : v.Valid) :
    AlarmToneReq.decode (AlarmToneReq.encode v) = some v := by
  simp [AlarmToneReq.decode, AlarmToneReq.encode, AlarmToneReq.parse, pConst_rt]

theorem rt_AlarmToneResp (v : AlarmToneResp) (_hv : v.Valid) :
    AlarmToneResp.decode (AlarmToneResp.encode v) = some v := by
  have hf := pFlag_rt v.state []
  simp [AlarmToneResp.decode, AlarmToneResp.encode, AlarmToneResp.parse, pConst_rt, hf]

theorem rt_PS200WorkingStatusReq (v : PS200WorkingStatusReq) (_hv : v.Valid) :
    PS200WorkingStatusReq.decode (PS200WorkingStatusReq.encode v) = some v := by
  simp [PS200WorkingStatusReq.decode, PS200WorkingStatusReq.encode,
    PS200WorkingStatusReq.parse, pConst_rt]

set_option maxHeartbeats 1000000 in
theorem rt_PS200WorkingStatusChannel (c : PS200WorkingStatusChannel) (hc : c.Valid)
    (r : List Nat) : PS200WorkingStatusChannel.parse (c.encode ++ r) = some (c, r) := by
  obtain ⟨-, -, -, -, h5, -, h7, h8, h9, h10, h11, h12, h13⟩ := hc
  have hb : ∀ t, pBytes 2 (c.reserved_value ++ t) = some (c.reserved_value, t) := by
    intro t; rw [← h5]; exact pBytes_rt c.reserved_value t
  simp [PS200WorkingStatusChannel.encode, PS200WorkingStatusChannel.parse, pU8,
    List.append_assoc, hb, pU32_rt _ _ h7, pU32_rt _ _ h8, pU32_rt _ _ h9, pU32_rt _ _ h10,
    pU32_rt _ _ h11, pU32_rt _ _ h12, pU32_rt _ _ h13]

theorem rt_PS200WorkingStatusResp (v : PS200WorkingStatusResp) (hv : v.Valid) :
    PS200WorkingStatusResp.decode (PS200WorkingStatusResp.encode v) = some v := by
  obtain ⟨-, hts, hlen, hch⟩ := hv
  have ha := pArray_rt PS200WorkingStatusChannel.parse PS200WorkingStatusChannel.encode
    v.channels [] (fun x hx t => rt_PS200WorkingStatusChannel x (hch x hx) t)
  rw [List.append_nil, hlen] at ha
  simp [PS200WorkingStatusResp.decode, PS200WorkingStatusResp.encode,
    PS200WorkingStatusResp.parse, pConst_rt, pU8, pU32_rt _ _ hts, ha]

theorem rt_PS200DCStatusReq (v : PS200DCStatusReq) (_hv : v.Valid) :
    PS200DCStatusReq.decode (PS200DCStatusReq.encode v) = some v := by
  simp [PS200DCStatusReq.decode, PS200DCStatusReq.encode, PS200DCStatusReq.parse, pConst_rt]

set_option maxHeartbeats 1000000 in
theorem rt_PS200DCStatusChannel (c : PS200DCStatusChannel) (hc : c.Valid)
    (r : List Nat) : PS200DCStatusChannel.parse (c.encode ++ r) = some (c, r) := by
  obtain ⟨-, -, h3, h4, h5, h6, h7⟩ := hc
  simp [PS200DCStatusChannel.encode, PS200DCStatusChannel.parse, pU8, List.append_assoc,
    pU32_rt _ _ h3, pU32_rt _ _ h4, pU32_rt _ _ h5, pU32_rt _ _ h6, pU32_rt _ _ h7]

theorem rt_PS200DCStatusResp (v : PS200DCStatusResp) (hv : v.Valid) :
    PS200DCStatusResp.decode (PS200DCStatusResp.encode v) = some v := by
  obtain ⟨-, hts, hlen, hch⟩ := hv
  have ha := pArray_rt PS200DCStatusChannel.parse PS200DCStatusChannel.encode
    v.channels [] (fun x hx t => rt_PS200DCStatusChannel x (hch x hx) t)
  rw [List.append_nil, hlen] at ha
  simp [PS200DCStatusResp.decode, PS200DCStatusResp.encode, PS200DCStatusResp.parse,
    pConst_rt, pU8, pU32_rt _ _ hts, ha]

theorem rt_AlarmToneTaskReq (v : AlarmToneTaskReq) (_hv : v.Valid) :
    AlarmToneTaskReq.decode (AlarmToneTaskReq.encode v) = some v := by
  simp [AlarmToneTaskReq.decode, AlarmToneTaskReq.encode, AlarmToneTaskReq.parse, pConst_rt, pU8]

theorem rt_AlarmToneTaskResp (v : AlarmToneTaskResp) (_hv : v.Valid) :
    AlarmToneTaskResp.decode (AlarmToneTaskResp.encode v) = some v := by
  simp [AlarmToneTaskResp.decode, AlarmToneTaskResp.encode, AlarmToneTaskResp.parse,
    pConst_rt, pU8]

/-- A one-character Python slice `s[n:n+1]` equals the one-character string
`s[n]` when `n` is in range. -/
theorem drop_take_one {α : Type} (s : List α) (n : Nat) (h : n < s.length) :
    (s.drop n).take 1 = [s.get ⟨n, h⟩] := by
  rw [List.drop_eq_getElem_cons h]
  rfl

/-! ## Claim C1 -/

/-- C1: for every registered packet shape (BindReq, BindResp,
BLEHardwareInfoReq, BLEHardwareInfoResp, AlarmToneReq, AlarmToneResp,
PS200WorkingStatusReq, PS200WorkingStatusResp, PS200DCStatusReq,
PS200DCStatusResp, AlarmToneTaskReq, AlarmToneTaskResp) and every value with
valid field contents — the telemetry responses admitting channel arrays of
any length matching the count byte, in particular 0 and the tested maximum —
decoding the bytes produced by encoding that value yields the original
value. -/
theorem c1_roundtrip :
    (∀ v : BindReq, v.Valid → BindReq.decode (BindReq.encode v) = some v) ∧
    (∀ v : BindResp, v.Valid → BindResp.decode (BindResp.encode v) = some v) ∧
    (∀ v : BLEHardwareInfoReq, v.Valid →
      BLEHardwareInfoReq.decode (BLEHardwareInfoReq.encode v) = some v) ∧
    (∀ v : BLEHardwareInfoResp, v.Valid →
      BLEHardwareInfoResp.decode (BLEHardwareInfoResp.encode v) = some v) ∧
    (∀ v : AlarmToneReq, v.Valid → AlarmToneReq.decode (AlarmToneReq.encode v) = some v) ∧
    (∀ v : AlarmToneResp, v.Valid → AlarmToneResp.decode (AlarmToneResp.encode v) = some v) ∧
    (∀ v : PS200WorkingStatusReq, v.Valid →
      PS200WorkingStatusReq.decode (PS200WorkingStatusReq.encode v) = some v) ∧
    (∀ v : PS200WorkingStatusResp, v.Valid →
      PS200WorkingStatusResp.decode (PS200WorkingStatusResp.encode v) = some v) ∧
    (∀ v : PS200DCStatusReq, v.Valid →
      PS200DCStatusReq.decode (PS200DCStatusReq.encode v) = some v) ∧
    (∀ v : PS200DCStatusResp, v.Valid →
      PS200DCStatusResp.decode (PS200DCStatusResp.encode v) = some v) ∧
    (∀ v : AlarmToneTaskReq, v.Valid →
      AlarmToneTaskReq.decode (AlarmToneTaskReq.encode v) = some v) ∧
    (∀ v : AlarmToneTaskResp, v.Valid →
      AlarmToneTaskResp.decode (AlarmToneTaskResp.encode v) = some v) :=
  ⟨rt_BindReq, rt_BindResp, rt_BLEHardwareInfoReq, rt_BLEHardwareInfoResp, rt_AlarmToneReq,
    rt_AlarmToneResp, rt_PS200WorkingStatusReq, rt_PS200WorkingStatusResp, rt_PS200DCStatusReq,
    rt_PS200DCStatusResp, rt_AlarmToneTaskReq, rt_AlarmToneTaskResp⟩

/-- Witness for C1: the round trip instantiated at a concrete valid value of
each of the twelve shapes, including channel arrays of length 0 and of
length 2 for both telemetry responses. -/
theorem c1_roundtrip_witness :
    BindReq.decode (BindReq.encode ⟨List.replicate 16 7⟩) = some ⟨List.replicate 16 7⟩ ∧
    BindResp.decode (BindResp.encode ⟨1⟩) = some ⟨1⟩ ∧
    BLEHardwareInfoReq.decode (BLEHardwareInfoReq.encode ⟨⟩) = some ⟨⟩ ∧
    BLEHardwareInfoResp.decode
      (BLEHardwareInfoResp.encode ⟨2, 3, 4, 5, [9, 8, 7, 6, 5, 4, 3, 2]⟩) =
      some ⟨2, 3, 4, 5, [9, 8, 7, 6, 5, 4, 3, 2]⟩ ∧
    AlarmToneReq.decode (AlarmToneReq.encode ⟨⟩) = some ⟨⟩ ∧
    AlarmToneResp.decode (AlarmToneResp.encode ⟨true⟩) = some ⟨true⟩ ∧
    PS200WorkingStatusReq.decode (PS200WorkingStatusReq.encode ⟨⟩) = some ⟨⟩ ∧
    PS200WorkingStatusResp.decode (PS200WorkingStatusResp.encode ⟨0, 123456789, []⟩) =
      some ⟨0, 123456789, []⟩ ∧
    PS200WorkingStatusResp.decode (PS200WorkingStatusResp.encode
        ⟨2, 4294967295, [⟨1, 1, 2, 3, [0, 0], 5000, 2000, 100, 100000, 60000, 3600, 420⟩,
          ⟨2, 0, 1, 0, [0, 0], 0, 0, 0, 65000, 0, 0, 0⟩]⟩) =
      some ⟨2, 4294967295, [⟨1, 1, 2, 3, [0, 0], 5000, 2000, 100, 100000, 60000, 3600, 420⟩,
          ⟨2, 0, 1, 0, [0, 0], 0, 0, 0, 65000, 0, 0, 0⟩]⟩ ∧
    PS200DCStatusReq.decode (PS200DCStatusReq.encode ⟨⟩) = some ⟨⟩ ∧
    PS200DCStatusResp.decode (PS200DCStatusResp.encode ⟨1700000000, 0, []⟩) =
      some ⟨1700000000, 0, []⟩ ∧
    PS200DCStatusResp.decode (PS200DCStatusResp.encode
        ⟨1700000000, 2, [⟨1, 1, 5000, 2000, 100000, 65000, 60000⟩,
          ⟨0, 0, 0, 0, 0, 0, 4294967295⟩]⟩) =
      some ⟨1700000000, 2, [⟨1, 1, 5000, 2000, 100000, 65000, 60000⟩,
          ⟨0, 0, 0, 0, 0, 0, 4294967295⟩]⟩ ∧
    AlarmToneTaskReq.decode (AlarmToneTaskReq.encode ⟨3⟩) = some ⟨3⟩ ∧
    AlarmToneTaskResp.decode (AlarmToneTaskResp.encode ⟨255⟩) = some ⟨255⟩ :=
  ⟨c1_roundtrip.1 _ (by decide),
    c1_roundtrip.2.1 _ (by decide),
    c1_roundtrip.2.2.1 _ (by decide),
    c1_roundtrip.2.2.2.1 _ (by decide),
    c1_roundtrip.2.2.2.2.1 _ (by decide),
    c1_roundtrip.2.2.2.2.2.1 _ (by decide),
    c1_roundtrip.2.2.2.2.2.2.1 _ (by decide),
    c1_roundtrip.2.2.2.2.2.2.2.1 _ (by decide),
    c1_roundtrip.2.2.2.2.2.2.2.1 _ (by decide),
    c1_roundtrip.2.2.2.2.2.2.2.2.1 _ (by decide),
    c1_roundtrip.2.2.2.2.2.2.2.2.2.1 _ (by decide),
    c1_roundtrip.2.2.2.2.2.2.2.2.2.1 _ (by decide),
    c1_roundtrip.2.2.2.2.2.2.2.2.2.2.1 _ (by decide),
    c1_roundtrip.2.2.2.2.2.2.2.2.2.2.2 _ (by decide)⟩

/-! ## Claim C7 -/

/-- C7 counterexample: BindReq is a request packet, but its encoding does
not begin with a direction marker followed by its command code 0x18: the
first byte is the command code itself (0x18 is none of the direction marker
values 0x12/0x13/0x31 used in the source) and the second byte is already
payload (the first UUID byte). -/
theorem c7_cex :
    (BindReq.encode ⟨List.replicate 16 0⟩).head? = some 0x18 ∧
    0x18 ∉ [DIR_REQ, DIR_TASK, DIR_RESP] ∧
    (BindReq.encode ⟨List.replicate 16 0⟩).get? 1 = some 0 := by
  decide

/-- C7 (amended): every encoded packet of the correlated (`@req`/`@resp`)
family begins with its one-byte direction marker followed by its one-byte
command code, whereas the `@af02_packet` family (BindReq, BindResp,
BLEHardwareInfoReq, BLEHardwareInfoResp) begins directly with the command
byte and has no direction marker.  For each correlated command pair the
request's direction marker differs from the reply's (0x12 vs 0x31 for
0x92/0x93, 0x94/0x95, 0x96/0x97, and 0x13 vs 0x12 for 0x9C/0x9D), and the
alarm-tone-task request uses a direction marker (0x13) distinct from the
0x12 of the other requests. -/
theorem c7_amended :
    (∀ v : AlarmToneReq, (AlarmToneReq.encode v).take 2 = [DIR_REQ, 0x92]) ∧
    (∀ v : AlarmToneResp, (AlarmToneResp.encode v).take 2 = [DIR_RESP, 0x93]) ∧
    (∀ v : PS200WorkingStatusReq, (PS200WorkingStatusReq.encode v).take 2 = [DIR_REQ, 0x94]) ∧
    (∀ v : PS200WorkingStatusResp,
      (PS200WorkingStatusResp.encode v).take 2 = [DIR_RESP, 0x95]) ∧
    (∀ v : PS200DCStatusReq, (PS200DCStatusReq.encode v).take 2 = [DIR_REQ, 0x96]) ∧
    (∀ v : PS200DCStatusResp, (PS200DCStatusResp.encode v).take 2 = [DIR_RESP, 0x97]) ∧
    (∀ v : AlarmToneTaskReq, (AlarmToneTaskReq.encode v).take 2 = [DIR_TASK, 0x9C]) ∧
    (∀ v : AlarmToneTaskResp, (AlarmToneTaskResp.encode v).take 2 = [DIR_REQ, 0x9D]) ∧
    (∀ v : BindReq, (BindReq.encode v).head? = some 0x18) ∧
    (∀ v : BindResp, (BindResp.encode v).head? = some 0x19) ∧
    (∀ v : BLEHardwareInfoReq, (BLEHardwareInfoReq.encode v).head? = some 0xE0) ∧
    (∀ v : BLEHardwareInfoResp, (BLEHardwareInfoResp.encode v).head? = some 0xE1) ∧
    DIR_REQ ≠ DIR_RESP ∧ DIR_TASK ≠ DIR_RESP ∧ DIR_TASK ≠ DIR_REQ :=
  ⟨fun _ => rfl, fun _ => rfl, fun _ => rfl, fun _ => rfl, fun _ => rfl, fun _ => rfl,
    fun _ => rfl, fun _ => rfl, fun _ => rfl, fun _ => rfl, fun _ => rfl, fun _ => rfl,
    by decide, by decide, by decide⟩

/-! ## Claim C2 -/

/-- C2: decoding a DC-status response always yields exactly
`total_channels` channel records (so a byte sequence whose count field is 2
yields exactly 2); the DC-status header is the 4-byte little-endian
timestamp followed by the count byte, whereas the working-status header is
the count byte followed by the timestamp, and decoding the same payload
bytes under the two layouts yields different field values: the payload
`[1, 1, 0, 0, 0] ++ 34 zero bytes` reads as timestamp 257 with 0 channels
under the DC-status layout but as timestamp 1 with 1 channel under the
working-status layout. -/
theorem c2_dc_layout :
    (∀ (l : List Nat) (r : PS200DCStatusResp),
      PS200DCStatusResp.decode l = some r → r.channels.length = r.total_channels) ∧
    PS200DCStatusResp.decode
      (DIR_RESP :: 0x97 :: 1 :: 1 :: 0 :: 0 :: 0 :: List.replicate 34 0) =
      some ⟨257, 0, []⟩ ∧
    PS200WorkingStatusResp.decode
      (DIR_RESP :: 0x95 :: 1 :: 1 :: 0 :: 0 :: 0 :: List.replicate 34 0) =
      some ⟨1, 1, [⟨0, 0, 0, 0, [0, 0], 0, 0, 0, 0, 0, 0, 0⟩]⟩ ∧
    ((257 : Nat) ≠ 1 ∧ (0 : Nat) ≠ 1) := by
  refine ⟨?_, by decide, by decide, by decide, by decide⟩
  intro l r h
  simp only [PS200DCStatusResp.decode, Option.map_eq_some'] at h
  obtain ⟨⟨r0, rest⟩, hp, hr⟩ := h
  simp only at hr
  subst hr
  simp only [PS200DCStatusResp.parse, Option.bind_eq_bind, Option.bind_eq_some',
    Option.map_eq_some'] at hp
  obtain ⟨l1, -, l2, -, ⟨ts, l3⟩, -, ⟨tc, l4⟩, -, ⟨chs, l5⟩, h5, heq⟩ := hp
  cases heq
  exact pArray_length PS200DCStatusChannel.parse tc l4 chs l5 h5

/-! ## Claims C9, C3, C6 (advertisement parsing) -/

/-- C9 counterexample: the marker check passes and the broadcast name is
absent, yet the parser fails with `UnicodeDecodeError` — not the claimed
out-of-range/type error — because the strict UTF-8 decoding of the
user-name bytes (here the invalid byte `0xFF`) is evaluated before any
broadcast-name access. -/
theorem c9_cex :
    DeviceInfo.from_advertisement
      ⟨[(ID_MANUFACTURER, [0xaf, 0xfa, 1, 2, 3, 4, 0xFF])], none⟩ =
      .error .unicodeDecodeError := rfl

/-- C9 (amended): when the magic-marker check passes, the strict UTF-8
decoding of `manufacturer_data[6:].rstrip(b"\x00")` runs first: invalid
bytes raise `UnicodeDecodeError` regardless of the broadcast name.  When
those bytes are valid UTF-8, the parser is still not total: an absent
broadcast name raises a type error and a name shorter than 26 characters
raises an out-of-range error — in neither case the "not this device family"
(`ValueError`) failure — while a name of at least 26 characters makes
parsing succeed.  Totality therefore needs both valid UTF-8 user-name bytes
and a broadcast name of at least 26 characters. -/
theorem c9_error_paths (adv : Advertisement) (m : List Nat)
    (hm : adv.manufacturer_data.lookup ID_MANUFACTURER = some m)
    (hmagic : m.take 2 = MAGIC_MANUFACTURER) :
    (utf8Decode (rstripNull (m.drop 6)) = none →
      DeviceInfo.from_advertisement adv = .error .unicodeDecodeError) ∧
    (∀ u : List Char, utf8Decode (rstripNull (m.drop 6)) = some u →
      adv.local_name = none → DeviceInfo.from_advertisement adv = .error .typeError) ∧
    (∀ (u : List Char) (s : List Char), utf8Decode (rstripNull (m.drop 6)) = some u →
      adv.local_name = some s → s.length < 26 →
      DeviceInfo.from_advertisement adv = .error .indexError) ∧
    (∀ (u : List Char) (s : List Char), utf8Decode (rstripNull (m.drop 6)) = some u →
      adv.local_name = some s → 26 ≤ s.length →
      ∃ d, DeviceInfo.from_advertisement adv = .ok d) ∧
    DeviceInfo.from_advertisement adv ≠ .error .valueError := by
  have hne : m ≠ [] := by
    intro h
    rw [h] at hmagic
    simp [MAGIC_MANUFACTURER] at hmagic
  refine ⟨?_, ?_, ?_, ?_, ?_⟩
  · intro hu
    simp [DeviceInfo.from_advertisement, hm, hu, hne, hmagic]
  · intro u hu hn
    simp [DeviceInfo.from_advertisement, hm, hu, hn, hne, hmagic]
  · intro u s hu hs hlen
    simp only [DeviceInfo.from_advertisement, hm, hu, hs, if_pos (And.intro hne hmagic)]
    by_cases h12 : 12 < s.length
    · rw [dif_pos h12, dif_neg (by omega)]
    · rw [dif_neg h12]
  · intro u s hu hs hlen
    simp only [DeviceInfo.from_advertisement, hm, hu, hs, if_pos (And.intro hne hmagic)]
    rw [dif_pos (by omega), dif_pos (by omega)]
    exact ⟨_, rfl⟩
  · rcases hu : utf8Decode (rstripNull (m.drop 6)) with - | u
    · simp [DeviceInfo.from_advertisement, hm, hu, hne, hmagic]
    · rcases hln : adv.local_name with - | s
      · simp [DeviceInfo.from_advertisement, hm, hu, hln, hne, hmagic]
      · simp only [DeviceInfo.from_advertisement, hm, hu, hln,
          if_pos (And.intro hne hmagic)]
        by_cases h12 : 12 < s.length
        · by_cases h25 : 25 < s.length
          · rw [dif_pos h12, dif_pos h25]
            simp
          · rw [dif_pos h12, dif_neg h25]
            simp
        · rw [dif_neg h12]
          simp

/-- Witness for C9: with the marker present, invalid user-name bytes (a lone
continuation byte `0x80`) give `UnicodeDecodeError`, while valid (empty)
user-name bytes and an absent broadcast name give the type error — neither
is the "not ISDT" failure. -/
theorem c9_error_paths_witness :
    DeviceInfo.from_advertisement
      ⟨[(ID_MANUFACTURER, [0xaf, 0xfa, 1, 2, 3, 4, 0x80])], none⟩ =
      .error .unicodeDecodeError ∧
    DeviceInfo.from_advertisement
      ⟨[(ID_MANUFACTURER, [0xaf, 0xfa, 1, 2, 3, 4])], none⟩ = .error .typeError :=
  ⟨(c9_error_paths ⟨[(ID_MANUFACTURER, [0xaf, 0xfa, 1, 2, 3, 4, 0x80])], none⟩
      [0xaf, 0xfa, 1, 2, 3, 4, 0x80] rfl rfl).1 rfl,
    (c9_error_paths ⟨[(ID_MANUFACTURER, [0xaf, 0xfa, 1, 2, 3, 4])], none⟩
      [0xaf, 0xfa, 1, 2, 3, 4] rfl rfl).2.1 [] rfl rfl⟩

/-- C3 counterexample: this advertisement carries the vendor manufacturer
data entry starting with the magic marker, yet `from_advertisement` does not
return a DeviceInfo — the broadcast name is absent, so it fails with a type
error. -/
theorem c3_cex :
    DeviceInfo.from_advertisement
      ⟨[(ID_MANUFACTURER, [0xaf, 0xfa, 1, 2, 3, 4, 65, 66, 0])], none⟩ =
      .error .typeError := rfl

/-- C3 (amended): if the vendor manufacturer-data entry is absent, or
present but not starting with the 2-byte magic marker, parsing fails with
the "not this device family" error; if the marker is present, the broadcast
name has at least 26 characters, and the user-name bytes
(`manufacturer_data[6:].rstrip(b"\x00")`) are valid UTF-8 — invalid bytes
raise `UnicodeDecodeError` instead, before any name access —
`from_advertisement` returns a DeviceInfo whose `device_model_id` is the
hex rendering of manufacturer-data bytes 2..6, whose `user_name` is the
UTF-8 decoding of those null-stripped bytes, and whose name-derived fields
come from the fixed offsets `name[:4]`, `name[4:12].strip()`, `name[12]`,
`name[13:18]`, `name[25]` of the broadcast name. -/
theorem c3_parse :
    (∀ adv : Advertisement, adv.manufacturer_data.lookup ID_MANUFACTURER = none →
      DeviceInfo.from_advertisement adv = .error .valueError) ∧
    (∀ (adv : Advertisement) (m : List Nat),
      adv.manufacturer_data.lookup ID_MANUFACTURER = some m →
      m.take 2 ≠ MAGIC_MANUFACTURER →
      DeviceInfo.from_advertisement adv = .error .valueError) ∧
    (∀ (adv : Advertisement) (m : List Nat) (u : List Char) (s : List Char),
      adv.manufacturer_data.lookup ID_MANUFACTURER = some m →
      m.take 2 = MAGIC_MANUFACTURER →
      utf8Decode (rstripNull (m.drop 6)) = some u →
      adv.local_name = some s → 26 ≤ s.length →
      Except.map DeviceInfo.device_model_id (DeviceInfo.from_advertisement adv) =
        .ok (bytesToHex ((m.drop 2).take 4)) ∧
      Except.map DeviceInfo.user_name (DeviceInfo.from_advertisement adv) = .ok u ∧
      Except.map DeviceInfo.oem_id (DeviceInfo.from_advertisement adv) = .ok (s.take 4) ∧
      Except.map DeviceInfo.device (DeviceInfo.from_advertisement adv) =
        .ok (pyStrip ((s.drop 4).take 8)) ∧
      Except.map DeviceInfo.work_state (DeviceInfo.from_advertisement adv) =
        .ok ((s.drop 12).take 1) ∧
      Except.map DeviceInfo.binding_action (DeviceInfo.from_advertisement adv) =
        .ok ((s.drop 13).take 5) ∧
      Except.map DeviceInfo.add_state (DeviceInfo.from_advertisement adv) =
        .ok ((s.drop 25).take 1)) := by
  refine ⟨?_, ?_, ?_⟩
  · intro adv hm
    simp [DeviceInfo.from_advertisement, hm]
  · intro adv m hm hmagic
    simp [DeviceInfo.from_advertisement, hm, hmagic]
  · intro adv m u s hm hmagic hu hs hlen
    have hne : m ≠ [] := by
      intro h
      rw [h] at hmagic
      simp [MAGIC_MANUFACTURER] at hmagic
    have h12 : 12 < s.length := by omega
    have h25 : 25 < s.length := by omega
    simp only [DeviceInfo.from_advertisement, hm, hu, hs, if_pos (And.intro hne hmagic),
      dif_pos h12, dif_pos h25]
    refine ⟨rfl, rfl, rfl, rfl, ?_, rfl, ?_⟩
    · simp [Except.map, pyStrOr, drop_take_one s 12 h12]
    · simp [Except.map, drop_take_one s 25 h25]

/-- Witness for C3: the three parts of `c3_parse` at concrete
advertisements — vendor entry absent, marker mismatch, and a full well-formed
advertisement with valid-UTF-8 user-name bytes and a 26-character name. -/
theorem c3_parse_witness :
    DeviceInfo.from_advertisement ⟨[], some ("x".toList)⟩ = .error .valueError ∧
    DeviceInfo.from_advertisement ⟨[(ID_MANUFACTURER, [0, 1, 2, 3])], none⟩ =
      .error .valueError ∧
    Except.map DeviceInfo.oem_id (DeviceInfo.from_advertisement
      ⟨[(ID_MANUFACTURER, [0xaf, 0xfa, 1, 14, 0, 0, 65, 66, 0, 0])],
        some ("ISDTPS200  XCABCDE012345".toList ++ ['6', '7'])⟩) =
      .ok ("ISDT".toList) :=
  ⟨c3_parse.1 ⟨[], some ("x".toList)⟩ rfl,
    c3_parse.2.1 ⟨[(ID_MANUFACTURER, [0, 1, 2, 3])], none⟩ [0, 1, 2, 3] rfl (by decide),
    (c3_parse.2.2 ⟨[(ID_MANUFACTURER, [0xaf, 0xfa, 1, 14, 0, 0, 65, 66, 0, 0])],
        some ("ISDTPS200  XCABCDE012345".toList ++ ['6', '7'])⟩
      [0xaf, 0xfa, 1, 14, 0, 0, 65, 66, 0, 0] ("AB".toList)
      ("ISDTPS200  XCABCDE012345".toList ++ ['6', '7']) rfl rfl (by decide) rfl
      (by decide)).2.2.1⟩

/-- C6: the source line `work_state=name[12] or "S"` never produces the
default: a one-character Python string is truthy even when it is the zero
character, so an advertisement whose broadcast name has the zero character
at offset 12 yields `work_state = "\x00"`, not `"S"` (and an absent
character raises IndexError rather than defaulting). -/
theorem c6_work_state_nul :
    Except.map DeviceInfo.work_state (DeviceInfo.from_advertisement
      ⟨[(ID_MANUFACTURER, [0xaf, 0xfa, 1, 2, 3, 4, 65, 0])],
        some ("ISDTPS200   ".toList ++ Char.ofNat 0 :: "ABCDE01234567".toList)⟩) =
      .ok [Char.ofNat 0] ∧ Char.ofNat 0 ≠ 'S' :=
  ⟨rfl, by decide⟩

/-- Witness for C2: a concrete DC-status response with count byte 2 decodes
to exactly 2 channel records. -/
theorem c2_dc_layout_witness :
    (PS200DCStatusResp.mk 5 2 [⟨1, 1, 5000, 2000, 100000, 65000, 60000⟩,
      ⟨0, 0, 0, 0, 0, 0, 0⟩]).channels.length =
    (PS200DCStatusResp.mk 5 2 [⟨1, 1, 5000, 2000, 100000, 65000, 60000⟩,
      ⟨0, 0, 0, 0, 0, 0, 0⟩]).total_channels :=
  c2_dc_layout.1
    (PS200DCStatusResp.encode (.mk 5 2 [⟨1, 1, 5000, 2000, 100000, 65000, 60000⟩,
      ⟨0, 0, 0, 0, 0, 0, 0⟩])) _ (by decide)

/-! ## Claim C5 -/

/-- C5: the AF02 push handler never decodes anything.  The source matches
`tuple(data[0:1])` — a tuple of at most ONE element — against patterns that
all require exactly two elements, so no case ever fires and every inbound
byte sequence is passed through raw; in particular the bytes
`[0x19, 0x01]`, a perfectly decodable BindResp, are delivered raw instead of
as `BindResp(bound=1)`. -/
theorem c5_push_raw :
    (∀ d : List Nat, af02Callback d = .raw d) ∧
    af02Callback [0x19, 1] = .raw [0x19, 1] ∧
    BindResp.decode [0x19, 1] = some ⟨1⟩ := by
  refine ⟨?_, rfl, rfl⟩
  intro d
  have hlen : (d.take 1).length ≤ 1 := by
    simp [List.length_take]
  unfold af02Callback
  split
  all_goals try rfl
  all_goals (exfalso; rename_i heq; rw [heq] at hlen; simp at hlen)

/-! ## Claims C4, C10, C8 (the correlated-request slot) -/

/-- `Inv` holds in the initial session state. -/
theorem Inv_init : Inv initState := by
  constructor <;> simp [Inv, initState]

/-- `Inv` is preserved by every event, so it holds in every reachable
session state. -/
theorem Inv_step (s : CorrState) (e : Event) (h : Inv s) : Inv (step s e) := by
  obtain ⟨h1, h2⟩ := h
  cases e with
  | send =>
    constructor
    · intro g hg
      simp only [step, Option.some.injEq] at hg
      subst hg
      refine ⟨by simp [step], fun hmem => ?_⟩
      simp only [step] at hmem
      exact absurd (h2 _ hmem) (by omega)
    · intro x hx
      simp only [step] at hx ⊢
      have := h2 x hx
      omega
  | recv d =>
    cases hd : af01Decode d with
    | none => simpa [step, hd] using ⟨h1, h2⟩
    | some m =>
      cases hslot : s.af01Future with
      | none => simpa [step, hd, hslot] using ⟨h1, h2⟩
      | some g =>
        constructor
        · intro g' hg'
          simp [step, hd, hslot] at hg'
        · intro x hx
          simp only [step, hd, hslot, List.mem_append, List.mem_singleton] at hx ⊢
          rcases hx with hx | rfl
          · exact h2 x hx
          · exact (h1 x hslot).1

/-- A future that is no longer in the slot, is not yet resolved, and is
older than `nextId` can never be resolved by any later event sequence. -/
theorem stale_never_resolved (f : Nat) :
    ∀ (evs : List Event) (s : CorrState),
      s.af01Future ≠ some f → f ∉ s.resolved → f < s.nextId →
      f ∉ (run s evs).resolved := by
  intro evs
  induction evs with
  | nil => intro s _ h2 _; exact h2
  | cons e evs ih =>
    intro s h1 h2 h3
    cases e with
    | send =>
      apply ih
      · simp only [step, ne_eq, Option.some.injEq]
        omega
      · simpa [step] using h2
      · simp only [step]
        omega
    | recv d =>
      cases hd : af01Decode d with
      | none =>
        rw [run, show step s (.recv d) = s by simp [step, hd]]
        exact ih s h1 h2 h3
      | some m =>
        cases hslot : s.af01Future with
        | none =>
          rw [run, show step s (.recv d) = s by simp [step, hd, hslot]]
          exact ih s h1 h2 h3
        | some g =>
          have hgf : g ≠ f := by
            intro hgf
            exact h1 (by rw [hslot, hgf])
          apply ih
          · simp [step, hd, hslot]
          · simp only [step, hd, hslot, List.mem_append, List.mem_singleton]
            rintro (hx | rfl)
            · exact h2 hx
            · exact hgf rfl
          · simpa [step, hd, hslot] using h3

/-- C4: sending a correlated request while one is pending deterministically
supersedes it — the slot now holds the fresh future — and the superseded
request is never resolved afterwards: no single subsequent response, nor any
later sequence of responses, can resolve both the superseded and the new
request (`_af01_callback` only ever resolves the future currently in the
slot). -/
theorem c4_supersede (s : CorrState) (f : Nat) (hInv : Inv s)
    (hf : s.af01Future = some f) :
    (step s .send).af01Future = some s.nextId ∧
    ∀ evs : List Event, f ∉ (run (step s .send) evs).resolved := by
  obtain ⟨hslot, -⟩ := hInv
  obtain ⟨hlt, hnotr⟩ := hslot f hf
  refine ⟨rfl, fun evs => ?_⟩
  apply stale_never_resolved f evs (step s .send)
  · simp only [step, ne_eq, Option.some.injEq]
    omega
  · simpa [step] using hnotr
  · simp only [step]
    omega

/-- Witness for C4: superseding pending future 0 installs future 1, and two
subsequent decodable responses (valid AlarmToneResp packets) never resolve
future 0. -/
theorem c4_supersede_witness :
    (step ⟨some 0, 1, []⟩ .send).af01Future = some 1 ∧
    0 ∉ (run (step ⟨some 0, 1, []⟩ .send)
      [.recv [0x31, 0x93, 1], .recv [0x31, 0x93, 0]]).resolved :=
  ⟨(c4_supersede ⟨some 0, 1, []⟩ 0
      ⟨fun g hg => by simp_all, fun x hx => by simp_all⟩ rfl).1,
    (c4_supersede ⟨some 0, 1, []⟩ 0
      ⟨fun g hg => by simp_all, fun x hx => by simp_all⟩ rfl).2
      [.recv [0x31, 0x93, 1], .recv [0x31, 0x93, 0]]⟩

/-- C10: the pending-request slot is a single `Option` attribute, so it
holds at most one outstanding request; a decodable inbound message with a
request pending resolves exactly that request and clears the slot to Idle in
the same step, and two consecutive inbound messages can resolve a pending
future at most once. -/
theorem c10_resolve_once :
    (∀ (s : CorrState) (d : List Nat) (f : Nat),
      s.af01Future = some f → (af01Decode d).isSome →
      step s (.recv d) = ⟨none, s.nextId, s.resolved ++ [f]⟩) ∧
    (∀ (s : CorrState) (d1 d2 : List Nat) (f : Nat), s.af01Future = some f →
      (run s [.recv d1, .recv d2]).resolved.count f ≤ s.resolved.count f + 1) := by
  constructor
  · intro s d f hf hd
    rw [Option.isSome_iff_exists] at hd
    obtain ⟨m, hm⟩ := hd
    simp [step, hm, hf]
  · intro s d1 d2 f hf
    show (step (step s (.recv d1)) (.recv d2)).resolved.count f ≤ s.resolved.count f + 1
    cases h1 : af01Decode d1 with
    | some m1 =>
      rw [show step s (.recv d1) = ⟨none, s.nextId, s.resolved ++ [f]⟩ by
        simp [step, h1, hf]]
      cases h2 : af01Decode d2 with
      | some m2 => simp [step, h2, List.count_append]
      | none => simp [step, h2, List.count_append]
    | none =>
      rw [show step s (.recv d1) = s by simp [step, h1]]
      cases h2 : af01Decode d2 with
      | some m2 => simp [step, h2, hf, List.count_append]
      | none =>
        rw [show step s (.recv d2) = s by simp [step, h2]]
        omega

/-- Witness for C10: with future 0 pending, a decodable response resolves it
and clears the slot; the same two-message run resolves it only once. -/
theorem c10_resolve_once_witness :
    step ⟨some 0, 1, []⟩ (.recv [0x31, 0x93, 1]) = ⟨none, 1, [0]⟩ ∧
    (run ⟨some 0, 1, []⟩
      [.recv [0x31, 0x93, 1], .recv [0x31, 0x93, 1]]).resolved.count 0 ≤
      ([] : List Nat).count 0 + 1 :=
  ⟨c10_resolve_once.1 ⟨some 0, 1, []⟩ [0x31, 0x93, 1] 0 rfl (by decide),
    c10_resolve_once.2 ⟨some 0, 1, []⟩ [0x31, 0x93, 1] [0x31, 0x93, 1] 0 rfl⟩

/-- A run containing no decodable response leaves the pending slot occupied
and resolves nothing. -/
theorem no_resp_run (evs : List Event) :
    ∀ s : CorrState, (∀ d, Event.recv d ∈ evs → af01Decode d = none) →
      s.af01Future.isSome →
      (run s evs).af01Future.isSome ∧ (run s evs).resolved = s.resolved := by
  induction evs with
  | nil => intro s _ hs; exact ⟨hs, rfl⟩
  | cons e evs ih =>
    intro s h hs
    cases e with
    | send =>
      have := ih (step s .send) (fun d hd => h d (by simp [hd])) (by simp [step])
      simpa [run, step] using this
    | recv d =>
      have hd : af01Decode d = none := h d (by simp)
      rw [run, show step s (.recv d) = s by simp [step, hd]]
      exact ih s (fun d2 hd2 => h d2 (by simp [hd2])) hs

/-- C8 counterexample: after a correlated request is sent (future 0
pending), subsequent activity containing no decodable response — here an
unknown AF01 message and an out-of-range one — leaves the pending slot
occupied by future 0 and resolves nothing: the slot never returns to Idle
and no timeout failure exists in the code. -/
theorem c8_cex :
    (run initState [.send, .recv [0x31, 0x99, 0], .recv []]).af01Future = some 0 ∧
    (run initState [.send, .recv [0x31, 0x99, 0], .recv []]).resolved = [] :=
  ⟨rfl, rfl⟩

/-- C8 (amended): the observed design has no timeout.  A correlated request
that receives no decodable response remains pending through any sequence of
further events (undecodable messages or superseding sends keep the slot
occupied), and nothing is ever resolved — there is no CorrelationTimeout
resolution and the slot does not return to Idle on its own. -/
theorem c8_no_timeout (evs : List Event)
    (h : ∀ d, Event.recv d ∈ evs → af01Decode d = none) :
    ((run (step initState .send) evs).af01Future).isSome ∧
    (run (step initState .send) evs).resolved = [] := by
  have := no_resp_run evs (step initState .send) h (by simp [step])
  simpa [step, initState] using this

/-- Witness for C8: a concrete run with two undecodable inbound messages
keeps the request pending and resolves nothing. -/
theorem c8_no_timeout_witness :
    ((run (step initState .send)
      [.recv [0x31, 0x99, 0], .recv []]).af01Future).isSome ∧
    (run (step initState .send) [.recv [0x31, 0x99, 0], .recv []]).resolved = [] :=
  c8_no_timeout [.recv [0x31, 0x99, 0], .recv []]
    (by
      intro d hd
      simp only [List.mem_cons, List.not_mem_nil, or_false] at hd
      rcases hd with hd | hd <;> (cases hd; rfl))

end ISDT
